import Mathlib

/-!
Shallow embedding of the water-depths post-processing pipeline
(`myProcessor.py`): the flood-state classifier `processFloodMap`, the
output compositor `processOutputArray`, the output writer
`saveOutputWithNoData`, and the relevant fragments of the `run`
orchestration (classification-result dispatch, external permanent-water
mask binarization and alignment).

Rasters are flattened to lists of cell values.  Floating-point cells are
modelled exactly: a cell value is either the IEEE "not a number" marker
`RVal.nan` or an exact numeric value `RVal.num q`; the only operations
the source performs on these values are assignment, (in)equality
comparison, and `np.nanmax`, all of which are value-exact, so rationals
model `float32` faithfully (the `astype(np.float32)` casts are
value-preserving in this model and are recorded by `astypeFloat32`).
-/

set_option autoImplicit false

/-- Cell value of a floating-point raster: either the IEEE `NaN` marker
(`np.nan`, also the modelling of an absent / `None` no-data entry) or an
exact numeric value. -/
inductive RVal where
  | nan : RVal
  | num (q : ℚ) : RVal
deriving DecidableEq

/-- NumPy elementwise `!=` on float cells: `NaN` compares unequal to
everything, including itself; numbers compare by value.  This is the
comparison `aiRawData != pProfile.get('nodata', np.nan)` performs. -/
def rneq : RVal → RVal → Bool
  | RVal.nan, _ => true
  | _, RVal.nan => true
  | RVal.num a, RVal.num b => decide (a ≠ b)

/-- Cast of a cell value to `float32` (`astype(np.float32)` / assignment
into a `float32` array).  Values are modelled exactly, so the cast is the
identity on the represented value. -/
def astypeFloat32 (v : RVal) : RVal := v

/-- Numeric (non-NaN) entries of a grid, in order. -/
def numsOf (xs : List RVal) : List ℚ :=
  xs.filterMap (fun v => match v with | RVal.nan => none | RVal.num q => some q)

/-- Model of `np.nanmax`: maximum of the grid ignoring `NaN` entries;
`NaN` when every entry is `NaN` (NumPy emits a warning and returns `nan`
for an all-NaN input). -/
def nanmax (xs : List RVal) : RVal :=
  match numsOf xs with
  | [] => RVal.nan
  | h :: t => RVal.num (t.foldl max h)

/-- Rasterio profile fields the pipeline reads or writes
(`pProfile['dtype']`, `pProfile.get('nodata', np.nan)`, `compress`,
dimensions). -/
structure Profile where
  width : ℕ
  height : ℕ
  dtype : String
  nodata : RVal
  compress : String
deriving DecidableEq

/-- NumPy boolean-masked assignment `out[mask] = vals[mask]` (also the
scalar broadcast `out[mask] = c` with `vals` a constant list): cells
where the mask is true take the new value, the rest are unchanged.  All
call sites pass a mask and a value array of the output's shape. -/
def maskedWrite : List RVal → List Bool → List RVal → List RVal
  | [], _, _ => []
  | o :: os, [], _ => o :: os
  | o :: os, _ :: _, [] => o :: os
  | o :: os, m :: ms, v :: vs => (if m then v else o) :: maskedWrite os ms vs

/-- Fallback flood mask of `processOutputArray` when no explicit flooded
mask is supplied: `aiRawData != pProfile.get('nodata', np.nan)`
elementwise. -/
def floodFallbackMask (aiRawData : List RVal) (nodata : RVal) : List Bool :=
  aiRawData.map (fun v => rneq v nodata)

/-- Output compositor `processOutputArray(aiRawData, pProfile,
abPermanentWaterMask, abFloodedMask, iPermanentWaterNoDataParam)`:
initialize every cell to `np.nan` (`np.full_like(..., np.nan,
dtype=np.float32)`); if a flooded mask is supplied copy raw values at
flooded cells, otherwise copy raw values at cells whose raw value
compares unequal to the profile's no-data entry; finally, if a
permanent-water mask is supplied, overwrite its cells with the
caller-chosen sentinel.  `nodata` is `pProfile.get('nodata', np.nan)`. -/
def processOutputArray (aiRawData : List RVal) (nodata : RVal)
    (abPermanentWaterMask : Option (List Bool)) (abFloodedMask : Option (List Bool))
    (iPermanentWaterNoDataParam : ℚ) : List RVal :=
  let output0 := aiRawData.map (fun _ => RVal.nan)
  let output1 :=
    match abFloodedMask with
    | some m => maskedWrite output0 m (aiRawData.map astypeFloat32)
    | none => maskedWrite output0 (floodFallbackMask aiRawData nodata)
        (aiRawData.map astypeFloat32)
  match abPermanentWaterMask with
  | some m => maskedWrite output1 m
      (aiRawData.map (fun _ => RVal.num iPermanentWaterNoDataParam))
  | none => output1

/-- Record of one raster file written by the classifier's inner
`saveModifiedData` helper: derived file name, band-1 data, and the
no-data value installed in the profile. -/
structure WrittenFile where
  name : String
  data : List ℤ
  nodata : ℤ
deriving DecidableEq

/-- Relevant part of `getFloodMapInfo`'s result consumed by
`processFloodMap`: the band-1 classification data and the
`astype(pProfile['dtype'])` cast of the input profile's original data
type. -/
structure FloodMapInfo where
  data : List ℤ
  dtypeCast : ℤ → ℤ

/-- Cellwise reclassification of the three-state path (`np.select`):
`0 → 255` (no data), `2 or 3 → 1` (permanent water or flooded merged),
everything else `→ 0`. -/
def convertCell (c : ℤ) : ℤ :=
  if c = 0 then 255 else if c = 2 ∨ c = 3 then 1 else 0

/-- Number of fuel steps needed by `replaceFuel`; one unit per character
of the subject string suffices because every step consumes at least one
character. -/
def replaceFuel (pat rep : List Char) : ℕ → List Char → List Char
  | 0, s => s
  | _ + 1, [] => []
  | fuel + 1, c :: cs =>
    if 0 < pat.length ∧ (c :: cs).take pat.length = pat then
      rep ++ replaceFuel pat rep fuel ((c :: cs).drop pat.length)
    else
      c :: replaceFuel pat rep fuel cs

/-- Python `str.replace(pat, rep)`: leftmost, non-overlapping
replacement of every occurrence of `pat` (the pipeline only uses the
non-empty pattern `".tif"`). -/
def pyReplace (s pat rep : String) : String :=
  String.mk (replaceFuel pat.data rep.data s.data.length s.data)

/-- Derived name of the converted three-state grid:
`sInputFile.replace('.tif', '_converted.tif')`. -/
def convertedName (sInputFile : String) : String :=
  pyReplace sInputFile ".tif" "_converted.tif"

/-- Body of `processFloodMap` (inside the `try`).  The file-writing
collaborator (`rasterio.open(..., 'w')` + `write` inside
`saveModifiedData`) is passed in as `write`, which may fail with an
exception modelled as `Except.error`; any such exception propagates out
of the body.  Returns the `(processed_filename, permanent_water_mask)`
pair together with the list of files written.

Three-state path: the permanent-water mask is `aiData == 2`; if no cell
is 2 or 3 return `("NO_WATER", None)`; otherwise reclassify with
`convertCell`, cast to the original data type, write the converted file
(no-data 255) and return its name plus the mask.  Two-state path: return
`("NO_WATER", None)` when no cell is 1, else the input name and no
mask. -/
def processFloodMapBody (sInputFile : String) (info : FloodMapInfo) (bThreeState : Bool)
    (write : WrittenFile → Except String Unit) :
    Except String ((Option String × Option (List Bool)) × List WrittenFile) :=
  let aiData := info.data
  if bThreeState then
    let aiPermanentWaterMask := aiData.map (fun c => decide (c = 2))
    let bHasWater := aiData.any (fun c => decide (c = 2 ∨ c = 3))
    if !bHasWater then Except.ok ((some "NO_WATER", none), [])
    else
      let sModFile := convertedName sInputFile
      let iNoDataValue : ℤ := 255
      let aiModifiedData := (aiData.map convertCell).map info.dtypeCast
      let wf : WrittenFile := ⟨sModFile, aiModifiedData, iNoDataValue⟩
      match write wf with
      | Except.error e => Except.error e
      | Except.ok _ => Except.ok ((some sModFile, some aiPermanentWaterMask), [wf])
  else
    let bHasWater := aiData.any (fun c => decide (c = 1))
    if !bHasWater then Except.ok ((some "NO_WATER", none), [])
    else Except.ok ((some sInputFile, none), [])

/-- The classifier `processFloodMap`: runs the body and converts any
exception into the `(None, None)` result (the `except` clause logs and
returns `(None, None)`; nothing is re-raised). -/
def processFloodMap (sInputFile : String) (info : FloodMapInfo) (bThreeState : Bool)
    (write : WrittenFile → Except String Unit) :
    (Option String × Option (List Bool)) × List WrittenFile :=
  match processFloodMapBody sInputFile info bThreeState write with
  | Except.ok r => r
  | Except.error _ => ((none, none), [])

/-- Outcome of the `run` pipeline's dispatch on the classifier's result
(step 4 of `run`): `earlyDone` is the `NO_WATER` branch
(`updateStatus("DONE", 100)` then `return`, before any model
invocation), `fatal` is the `raise RuntimeError("Flood map
pre-processing failed")` branch, caught by the top-level handler which
calls `updateStatus("ERROR", 0)`, and `proceed f` continues the
pipeline with `f` as the model's flood-map input. -/
inductive PipelineOutcome where
  | earlyDone : PipelineOutcome
  | fatal : PipelineOutcome
  | proceed (f : String) : PipelineOutcome
deriving DecidableEq

/-- Dispatch of `run` on `sProcessedFloodMapName` (lines
`if sProcessedFloodMapName == "NO_WATER": ... elif not
sProcessedFloodMapName: raise ...`).  Python truthiness: both `None`
and the empty string are falsy. -/
def classificationDecision : Option String → PipelineOutcome
  | some s =>
      if s = "NO_WATER" then PipelineOutcome.earlyDone
      else if s = "" then PipelineOutcome.fatal
      else PipelineOutcome.proceed s
  | none => PipelineOutcome.fatal

/-- Status the pipeline reports for each immediate outcome:
`("DONE", 100)` in the `NO_WATER` branch, `("ERROR", 0)` from the
top-level exception handler; `proceed` reports nothing at this point. -/
def outcomeStatus : PipelineOutcome → Option (String × ℕ)
  | PipelineOutcome.earlyDone => some ("DONE", 100)
  | PipelineOutcome.fatal => some ("ERROR", 0)
  | PipelineOutcome.proceed _ => none

/-- Permanent-water mask the `run` Case 1 compositing step derives from
the original three-state data: `(original_data == 2)`. -/
def permanentWaterMaskOf (originalData : List ℤ) : List Bool :=
  originalData.map (fun c => decide (c = 2))

/-- Flooded mask the `run` Case 1 compositing step derives from the
original three-state data: `(original_data == 3)`. -/
def floodedMaskOf (originalData : List ℤ) : List Bool :=
  originalData.map (fun c => decide (c = 3))

/-- Binarization of the external land-cover raster (`run`, Case 3 mask
generation): `(aiFullWCData == 80).astype(np.uint8)`, so 1 exactly at
cells whose land-cover code is the target code 80, 0 elsewhere. -/
def binarizeWorldCover (aiFullWCData : List ℤ) : List ℕ :=
  aiFullWCData.map (fun c => if c = 80 then 1 else 0)

/-- Resampling method selector passed to the reprojection collaborator
(`rasterio.warp.Resampling`). -/
inductive ResamplingMethod where
  | nearest : ResamplingMethod
  | bilinear : ResamplingMethod
  | cubic : ResamplingMethod
deriving DecidableEq

/-- Geotransform and coordinate reference system of the raw model-output
grid (`pWDMProfile['transform']`, `pWDMProfile['crs']`), kept abstract:
the pipeline only forwards them. -/
structure GridGeoref where
  transform : String
  crs : String
deriving DecidableEq

/-- Modelled from the spec: the external resampling collaborator
`rasterio.warp.reproject` with `Resampling.nearest` (its implementation
is not part of this repository).  Per the spec's nearest-neighbor
description, each destination cell copies the value of the nearest
source cell, or takes the fill value (`dst_nodata`) when no source cell
covers it; the geometric nearest-source correspondence is abstracted as
`nn`, mapping a destination index to the covering source index, if
any. -/
def reprojectNearest (dstLen : ℕ) (src : List ℕ) (fill : ℕ)
    (nn : ℕ → Option ℕ) : List ℕ :=
  (List.range dstLen).map (fun i =>
    match nn i with
    | some j => src.getD j fill
    | none => fill)

/-- Record of the reprojection call issued by `run`'s Case 3
compositing step: destination grid targeting parameters, fill value,
resampling method, and the aligned mask produced. -/
structure ReprojectCall where
  dstTransform : String
  dstCrs : String
  dstNodata : ℕ
  method : ResamplingMethod
  result : List ℕ
deriving DecidableEq

/-- Alignment of the persisted binary permanent-water mask onto the raw
model-output grid (`run`, Case 3: `aiAlignedMask =
np.empty(aiRawWDMData.shape, ...)` followed by `reproject(...,
dst_transform=pWDMProfile['transform'], dst_crs=pWDMProfile['crs'],
dst_nodata=0, resampling=Resampling.nearest)`).  `wdmShape` is the raw
model-output grid's cell count and `wdmGeoref` its geotransform/CRS. -/
def alignPermanentWaterMask (aiBinaryMask : List ℕ) (wdmShape : ℕ)
    (wdmGeoref : GridGeoref) (nn : ℕ → Option ℕ) : ReprojectCall :=
  { dstTransform := wdmGeoref.transform
  , dstCrs := wdmGeoref.crs
  , dstNodata := 0
  , method := ResamplingMethod.nearest
  , result := reprojectNearest wdmShape aiBinaryMask 0 nn }

/-- Record of the raster written by `saveOutputWithNoData`: path, the
profile actually used for the write, the band-1 data, and the tags
stamped for visualization (tag values are modelled as the numbers whose
decimal rendering the source stores with `str(...)`). -/
structure SavedRaster where
  path : String
  profile : Profile
  bandData : List RVal
  tagGdalNoData : ℚ
  tagStatMin : ℚ
  tagStatMax : RVal

/-- Output writer `saveOutputWithNoData(sOutputPath, afData, pProfile,
iPermanentWaterNoDataParam)`: copies the profile, forces
`dtype='float32'`, `nodata=iPermanentWaterNoDataParam`,
`compress='lzw'`, writes `afData.astype('float32')` as band 1, and
stamps the tags `TIFFTAG_GDAL_NODATA=str(iPermanentWaterNoDataParam)`,
`STATISTICS_MINIMUM="0"` and `STATISTICS_MAXIMUM=str(np.nanmax(afData))`. -/
def saveOutputWithNoData (sOutputPath : String) (afData : List RVal)
    (pProfile : Profile) (iPermanentWaterNoDataParam : ℚ) : SavedRaster :=
  let modified : Profile :=
    { pProfile with
        dtype := "float32"
      , nodata := RVal.num iPermanentWaterNoDataParam
      , compress := "lzw" }
  { path := sOutputPath
  , profile := modified
  , bandData := afData.map astypeFloat32
  , tagGdalNoData := iPermanentWaterNoDataParam
  , tagStatMin := 0
  , tagStatMax := nanmax afData }

/-- Effective permanent-water condition of the compositor at cell `i`:
the supplied mask's value there, or false when no mask was supplied. -/
def pwAt (abPermanentWaterMask : Option (List Bool)) (i : ℕ) : Bool :=
  match abPermanentWaterMask with
  | some m => m.getD i false
  | none => false

/-- Effective flooded condition of the compositor at cell `i`: the
supplied flooded mask's value there, or the fallback comparison
`aiRawData != pProfile.get('nodata', np.nan)` when no flooded mask was
supplied. -/
def floodedAt (aiRawData : List RVal) (nodata : RVal)
    (abFloodedMask : Option (List Bool)) (i : ℕ) : Bool :=
  match abFloodedMask with
  | some m => m.getD i false
  | none => rneq (aiRawData.getD i RVal.nan) nodata

theorem getD_map_lt {α β : Type} (f : α → β) (l : List α) :
    ∀ (i : ℕ), i < l.length → ∀ (d : β) (d' : α),
      (l.map f).getD i d = f (l.getD i d') := by
  induction l with
  | nil => intro i hi; simp at hi
  | cons a t ih =>
    intro i hi d d'
    cases i with
    | zero => simp
    | succ n =>
      simp only [List.map_cons, List.getD_cons_succ]
      exact ih n (by simpa using hi) d d'

theorem maskedWrite_length (o : List RVal) : ∀ (m : List Bool) (v : List RVal),
    (maskedWrite o m v).length = o.length := by
  induction o with
  | nil => intro m v; cases m <;> cases v <;> simp [maskedWrite]
  | cons a os ih =>
    intro m v
    cases m with
    | nil => simp [maskedWrite]
    | cons mb ms =>
      cases v with
      | nil => simp [maskedWrite]
      | cons vb vs => simp [maskedWrite, ih]

theorem maskedWrite_getD (o : List RVal) : ∀ (m : List Bool) (v : List RVal)
    (i : ℕ) (d : RVal), m.length = o.length → v.length = o.length → i < o.length →
    (maskedWrite o m v).getD i d =
      if m.getD i false then v.getD i d else o.getD i d := by
  induction o with
  | nil => intro m v i d hm hv hi; simp at hi
  | cons a os ih =>
    intro m v i d hm hv hi
    cases m with
    | nil => simp at hm
    | cons mb ms =>
      cases v with
      | nil => simp at hv
      | cons vb vs =>
        cases i with
        | zero => simp [maskedWrite]
        | succ n =>
          simp only [maskedWrite, List.getD_cons_succ]
          exact ih ms vs n d (by simpa using hm) (by simpa using hv) (by simpa using hi)

theorem stageFlood_getD (raw : List RVal) (m : List Bool) (hm : m.length = raw.length)
    (i : ℕ) (hi : i < raw.length) :
    (maskedWrite (raw.map (fun _ => RVal.nan)) m (raw.map astypeFloat32)).getD i RVal.nan =
      if m.getD i false then astypeFloat32 (raw.getD i RVal.nan) else RVal.nan := by
  rw [maskedWrite_getD (raw.map (fun _ => RVal.nan)) m (raw.map astypeFloat32) i RVal.nan
      (by simpa using hm) (by simp) (by simpa using hi)]
  rw [getD_map_lt astypeFloat32 raw i hi RVal.nan RVal.nan,
      getD_map_lt (fun _ => RVal.nan) raw i hi RVal.nan RVal.nan]

/-- Per-cell characterization of the compositor: each cell is assigned
by exactly one of the three priority rules — permanent water (sentinel),
then flooded (raw value), then background (`NaN`). -/
theorem processOutputArray_getD (aiRawData : List RVal) (nodata : RVal)
    (abPW abFl : Option (List Bool)) (s : ℚ)
    (hpw : ∀ m, abPW = some m → m.length = aiRawData.length)
    (hfl : ∀ m, abFl = some m → m.length = aiRawData.length)
    (i : ℕ) (hi : i < aiRawData.length) :
    (processOutputArray aiRawData nodata abPW abFl s).getD i RVal.nan =
      if pwAt abPW i then RVal.num s
      else if floodedAt aiRawData nodata abFl i then
        astypeFloat32 (aiRawData.getD i RVal.nan)
      else RVal.nan := by
  have hffm : (floodFallbackMask aiRawData nodata).length = aiRawData.length := by
    simp [floodFallbackMask]
  have hffm' : (floodFallbackMask aiRawData nodata).getD i false =
      rneq (aiRawData.getD i RVal.nan) nodata := by
    simpa [floodFallbackMask] using
      getD_map_lt (fun v => rneq v nodata) aiRawData i hi false RVal.nan
  cases abFl with
  | none =>
    cases abPW with
    | none =>
      show (maskedWrite (aiRawData.map (fun _ => RVal.nan)) (floodFallbackMask aiRawData nodata)
          (aiRawData.map astypeFloat32)).getD i RVal.nan = _
      rw [stageFlood_getD aiRawData (floodFallbackMask aiRawData nodata) hffm i hi, hffm']
      simp [pwAt, floodedAt]
    | some pm =>
      have hpm := hpw pm rfl
      show (maskedWrite
          (maskedWrite (aiRawData.map (fun _ => RVal.nan)) (floodFallbackMask aiRawData nodata)
            (aiRawData.map astypeFloat32)) pm
          (aiRawData.map (fun _ => RVal.num s))).getD i RVal.nan = _
      rw [maskedWrite_getD _ pm (aiRawData.map (fun _ => RVal.num s)) i RVal.nan
          (by rw [maskedWrite_length]; simpa using hpm)
          (by rw [maskedWrite_length]; simp)
          (by rw [maskedWrite_length]; simpa using hi)]
      rw [stageFlood_getD aiRawData (floodFallbackMask aiRawData nodata) hffm i hi, hffm']
      rw [getD_map_lt (fun _ => RVal.num s) aiRawData i hi RVal.nan RVal.nan]
      simp [pwAt, floodedAt]
  | some fm =>
    have hfm := hfl fm rfl
    cases abPW with
    | none =>
      show (maskedWrite (aiRawData.map (fun _ => RVal.nan)) fm
          (aiRawData.map astypeFloat32)).getD i RVal.nan = _
      rw [stageFlood_getD aiRawData fm hfm i hi]
      simp [pwAt, floodedAt]
    | some pm =>
      have hpm := hpw pm rfl
      show (maskedWrite
          (maskedWrite (aiRawData.map (fun _ => RVal.nan)) fm
            (aiRawData.map astypeFloat32)) pm
          (aiRawData.map (fun _ => RVal.num s))).getD i RVal.nan = _
      rw [maskedWrite_getD _ pm (aiRawData.map (fun _ => RVal.num s)) i RVal.nan
          (by rw [maskedWrite_length]; simpa using hpm)
          (by rw [maskedWrite_length]; simp)
          (by rw [maskedWrite_length]; simpa using hi)]
      rw [stageFlood_getD aiRawData fm hfm i hi]
      rw [getD_map_lt (fun _ => RVal.num s) aiRawData i hi RVal.nan RVal.nan]
      simp [pwAt, floodedAt]

theorem processOutputArray_length (aiRawData : List RVal) (nodata : RVal)
    (abPW abFl : Option (List Bool)) (s : ℚ) :
    (processOutputArray aiRawData nodata abPW abFl s).length = aiRawData.length := by
  unfold processOutputArray
  cases abFl <;> cases abPW <;> simp [maskedWrite_length]

/-- C1: for every raw model-output grid, no-data entry, optional
permanent-water mask, optional flooded mask and sentinel, every cell of
the grid returned by `processOutputArray` is one of: the caller-chosen
permanent-water sentinel, the original raw value, or the no-value marker
`NaN` — the three priority rules being mutually exclusive per cell by
`processOutputArray_getD` — and every cell of the permanent-water mask
holds the sentinel, even when the flooded mask (or the fallback rule)
would also have assigned it the raw value. -/
theorem claim_C1_compositing_invariant (aiRawData : List RVal) (nodata : RVal)
    (abPW abFl : Option (List Bool)) (s : ℚ)
    (hpw : ∀ m, abPW = some m → m.length = aiRawData.length)
    (hfl : ∀ m, abFl = some m → m.length = aiRawData.length)
    (i : ℕ) (hi : i < aiRawData.length) :
    ((processOutputArray aiRawData nodata abPW abFl s).getD i RVal.nan = RVal.num s ∨
     (processOutputArray aiRawData nodata abPW abFl s).getD i RVal.nan =
       aiRawData.getD i RVal.nan ∨
     (processOutputArray aiRawData nodata abPW abFl s).getD i RVal.nan = RVal.nan) ∧
    (pwAt abPW i = true →
      (processOutputArray aiRawData nodata abPW abFl s).getD i RVal.nan = RVal.num s) := by
  have h := processOutputArray_getD aiRawData nodata abPW abFl s hpw hfl i hi
  constructor
  · rw [h]; split_ifs <;> simp [astypeFloat32]
  · intro hp; rw [h, hp]; simp

theorem claim_C1_compositing_invariant_witness :
    (processOutputArray [RVal.num 7, RVal.num 2] (RVal.num 0)
        (some [true, false]) (some [true, true]) (-9999)).getD 0 RVal.nan =
      RVal.num (-9999) :=
  (claim_C1_compositing_invariant [RVal.num 7, RVal.num 2] (RVal.num 0)
      (some [true, false]) (some [true, true]) (-9999)
      (fun m hm => by cases hm; rfl) (fun m hm => by cases hm; rfl)
      0 (by decide)).2 (by decide)

/-- C6: with a declared (numeric) no-data entry and no flooded mask
supplied (and before any permanent-water overwrite, i.e. with no
permanent-water mask), exactly the cells whose raw value differs from
the declared no-data value receive the original raw value, and the
remaining cells keep the no-value marker `NaN`. -/
theorem claim_C6_fallback_flood_policy (aiRawData : List RVal) (d s : ℚ)
    (i : ℕ) (hi : i < aiRawData.length) :
    (aiRawData.getD i RVal.nan ≠ RVal.num d →
      (processOutputArray aiRawData (RVal.num d) none none s).getD i RVal.nan =
        astypeFloat32 (aiRawData.getD i RVal.nan)) ∧
    (aiRawData.getD i RVal.nan = RVal.num d →
      (processOutputArray aiRawData (RVal.num d) none none s).getD i RVal.nan =
        RVal.nan) := by
  have h := processOutputArray_getD aiRawData (RVal.num d) none none s
      (fun m hm => by cases hm) (fun m hm => by cases hm) i hi
  constructor
  · intro hne
    have hf : floodedAt aiRawData (RVal.num d) none i = true := by
      unfold floodedAt
      cases hv : aiRawData.getD i RVal.nan with
      | nan => rfl
      | num a =>
        have : a ≠ d := fun hq => hne (by rw [hv, hq])
        simp [rneq, this]
    rw [h]; simp [pwAt, hf]
  · intro heq
    have hf : floodedAt aiRawData (RVal.num d) none i = false := by
      unfold floodedAt
      rw [heq]
      simp [rneq]
    rw [h]; simp [pwAt, hf]

theorem claim_C6_fallback_flood_policy_witness :
    (processOutputArray [RVal.num 3, RVal.num (-1)] (RVal.num (-1)) none none 5).getD 0
        RVal.nan = astypeFloat32 (RVal.num 3) :=
  (claim_C6_fallback_flood_policy [RVal.num 3, RVal.num (-1)] (-1) 5 0 (by decide)).1
    (by decide)

/-- C10: when no flooded mask is supplied and the profile has no
declared no-data entry (`pProfile.get('nodata', np.nan)` defaults to
`NaN`), the comparison against `NaN` is true for every cell, so the
compositor treats every cell as flooded and — before any
permanent-water overwrite — the returned grid equals the raw grid cast
to `float32` at every cell; no cell is left as background. -/
theorem claim_C10_absent_nodata_all_flooded (aiRawData : List RVal) (s : ℚ)
    (i : ℕ) (hi : i < aiRawData.length) :
    (processOutputArray aiRawData RVal.nan none none s).getD i RVal.nan =
      astypeFloat32 (aiRawData.getD i RVal.nan) := by
  have h := processOutputArray_getD aiRawData RVal.nan none none s
      (fun m hm => by cases hm) (fun m hm => by cases hm) i hi
  have hf : floodedAt aiRawData RVal.nan none i = true := by
    unfold floodedAt
    cases aiRawData.getD i RVal.nan <;> rfl
  rw [h]; simp [pwAt, hf]

theorem claim_C10_absent_nodata_all_flooded_witness :
    (processOutputArray [RVal.num 0, RVal.num 4] RVal.nan none none (-9999)).getD 0
        RVal.nan = astypeFloat32 (RVal.num 0) :=
  claim_C10_absent_nodata_all_flooded [RVal.num 0, RVal.num 4] (-9999) 0 (by decide)

/-- C2: on a three-state classification grid containing at least one
cell equal to 2 or 3, `processFloodMap` with `bThreeState = true` writes
exactly one converted grid (with no-data value 255, under the
`_converted` name) in which, before the final data-type cast, every cell
originally 0 becomes the no-data value 255, every cell originally 2 or 3
becomes 1, every other cell becomes 0, and the written grid is this
reclassification cast to the input profile's original data type. -/
theorem claim_C2_three_state_reclassification (s : String) (info : FloodMapInfo)
    (write : WrittenFile → Except String Unit)
    (hw : ∀ wf, write wf = Except.ok ())
    (hwater : info.data.any (fun c => decide (c = 2 ∨ c = 3)) = true) :
    (processFloodMap s info true write).2 =
      [⟨convertedName s, (info.data.map convertCell).map info.dtypeCast, 255⟩] ∧
    ∀ i, i < info.data.length →
      ((info.data.getD i 0 = 0 → (info.data.map convertCell).getD i 0 = 255) ∧
       ((info.data.getD i 0 = 2 ∨ info.data.getD i 0 = 3) →
         (info.data.map convertCell).getD i 0 = 1) ∧
       ((info.data.getD i 0 ≠ 0 ∧ info.data.getD i 0 ≠ 2 ∧ info.data.getD i 0 ≠ 3) →
         (info.data.map convertCell).getD i 0 = 0)) := by
  constructor
  · unfold processFloodMap processFloodMapBody
    simp only [hwater]
    simp [hw]
  · intro i hi
    have hmap := getD_map_lt convertCell info.data i hi 0 0
    refine ⟨fun h0 => ?_, fun h23 => ?_, fun hother => ?_⟩
    · rw [hmap, h0]; rfl
    · rw [hmap]; rcases h23 with h | h <;> rw [h] <;> rfl
    · rw [hmap]
      unfold convertCell
      rw [if_neg hother.1, if_neg (fun h => h.elim hother.2.1 hother.2.2)]

theorem claim_C2_three_state_reclassification_witness :
    (processFloodMap "flood.tif" ⟨[0, 2, 3, 7], fun v => v % 256⟩ true
        (fun _ => Except.ok ())).2 =
      [⟨convertedName "flood.tif",
        ([(0 : ℤ), 2, 3, 7].map convertCell).map (fun v => v % 256), 255⟩] :=
  (claim_C2_three_state_reclassification "flood.tif" ⟨[0, 2, 3, 7], fun v => v % 256⟩
      (fun _ => Except.ok ()) (fun _ => rfl) (by decide)).1

/-- C3 (counterexample to the claim as stated): on the three-state grid
`[2]` (water present, so conversion happens), the returned
permanent-water mask is true at cell 0 while the reclassified
(converted) grid's cell 0 holds the flooded value 1 — so the mask is
not disjoint from the reclassified grid's flooded cells: every cell
with original value 2 is both in the mask and merged into flooded value
1 by the reclassification. -/
theorem claim_C3_disjointness_counterexample :
    ((processFloodMap "flood.tif" ⟨[2], fun v => v % 256⟩ true
        (fun _ => Except.ok ())).1.2.getD []).getD 0 false = true ∧
    ((processFloodMap "flood.tif" ⟨[2], fun v => v % 256⟩ true
        (fun _ => Except.ok ())).2.headD ⟨"", [], 0⟩).data.getD 0 0 = 1 := by
  decide

/-- C3 (amended): on every three-state grid containing water, the
returned permanent-water mask is true exactly at the cells whose
original value is 2, and it is disjoint from the flooded mask (the
cells with original value 3) that the pipeline's compositing step
derives and uses; in the reclassified grid itself the mask's cells are
intentionally merged into the flooded value 1. -/
theorem claim_C3_mask_exactness_amended (s : String) (info : FloodMapInfo)
    (write : WrittenFile → Except String Unit)
    (hw : ∀ wf, write wf = Except.ok ())
    (hwater : info.data.any (fun c => decide (c = 2 ∨ c = 3)) = true) :
    (processFloodMap s info true write).1.2 = some (permanentWaterMaskOf info.data) ∧
    (∀ i, i < info.data.length →
      ((permanentWaterMaskOf info.data).getD i false = true ↔ info.data.getD i 0 = 2)) ∧
    (∀ i, ¬((permanentWaterMaskOf info.data).getD i false = true ∧
            (floodedMaskOf info.data).getD i false = true)) := by
  refine ⟨?_, ?_, ?_⟩
  · unfold processFloodMap processFloodMapBody
    simp only [hwater]
    simp [hw, permanentWaterMaskOf]
  · intro i hi
    have hmap := getD_map_lt (fun c : ℤ => decide (c = 2)) info.data i hi false 0
    unfold permanentWaterMaskOf
    rw [hmap]
    simp
  · intro i hcontra
    by_cases hi : i < info.data.length
    · have h2 := hcontra.1
      have h3 := hcontra.2
      unfold permanentWaterMaskOf at h2
      unfold floodedMaskOf at h3
      rw [getD_map_lt (fun c : ℤ => decide (c = 2)) info.data i hi false 0] at h2
      rw [getD_map_lt (fun c : ℤ => decide (c = 3)) info.data i hi false 0] at h3
      have e2 : info.data.getD i 0 = 2 := by simpa using h2
      have e3 : info.data.getD i 0 = 3 := by simpa using h3
      rw [e2] at e3
      exact absurd e3 (by decide)
    · have hlen : info.data.length ≤ i := Nat.le_of_not_lt hi
      have : (permanentWaterMaskOf info.data).getD i false = false := by
        apply List.getD_eq_default
        simpa [permanentWaterMaskOf] using hlen
      rw [this] at hcontra
      exact Bool.false_ne_true hcontra.1

theorem claim_C3_mask_exactness_amended_witness :
    (processFloodMap "flood.tif" ⟨[0, 2, 3], fun v => v % 256⟩ true
        (fun _ => Except.ok ())).1.2 = some (permanentWaterMaskOf [0, 2, 3]) :=
  (claim_C3_mask_exactness_amended "flood.tif" ⟨[0, 2, 3], fun v => v % 256⟩
      (fun _ => Except.ok ()) (fun _ => rfl) (by decide)).1

/-- C4: when no exception occurs in the classifier's body (the write
collaborator succeeds) and the file names do not collide with the
sentinel string, `processFloodMap` returns the `NO_WATER` sentinel with
no mask exactly when the grid contains no water — no cell equal to 2 or
3 in the three-state case, no cell equal to 1 in the two-state case —
and in the two-state case with water present it returns the original
input identifier unchanged with no mask. -/
theorem claim_C4_no_water_detection (s : String) (info : FloodMapInfo) (b : Bool)
    (write : WrittenFile → Except String Unit)
    (hw : ∀ wf, write wf = Except.ok ())
    (hs : s ≠ "NO_WATER") (hc : convertedName s ≠ "NO_WATER") :
    ((processFloodMap s info b write).1 = (some "NO_WATER", none) ↔
      ((b = true → ∀ c ∈ info.data, c ≠ 2 ∧ c ≠ 3) ∧
       (b = false → ∀ c ∈ info.data, c ≠ 1))) ∧
    (b = false → (∃ c ∈ info.data, c = 1) →
      (processFloodMap s info b write).1 = (some s, none)) := by
  cases b with
  | true =>
    cases hW : info.data.any (fun c => decide (c = 2 ∨ c = 3)) with
    | false =>
      have hres : (processFloodMap s info true write).1 = (some "NO_WATER", none) := by
        unfold processFloodMap processFloodMapBody
        simp only [hW]
        simp
      refine ⟨iff_of_true hres ⟨fun _ c hcmem => ?_, fun h => absurd h (by decide)⟩,
        fun h => absurd h (by decide)⟩
      have h' := List.any_eq_false.mp hW c hcmem
      simpa using h'
    | true =>
      have hres : (processFloodMap s info true write).1 =
          (some (convertedName s), some (info.data.map (fun c => decide (c = 2)))) := by
        unfold processFloodMap processFloodMapBody
        simp only [hW]
        simp [hw]
      refine ⟨?_, fun h => absurd h (by decide)⟩
      rw [hres]
      constructor
      · intro heq
        exfalso
        have : (some (convertedName s) : Option String) = some "NO_WATER" :=
          congrArg Prod.fst heq
        exact hc (Option.some.inj this)
      · intro hforall
        exfalso
        obtain ⟨c, hcmem, hc23⟩ := List.any_eq_true.mp hW
        have hne := hforall.1 rfl c hcmem
        rcases of_decide_eq_true hc23 with h | h
        · exact hne.1 h
        · exact hne.2 h
  | false =>
    cases hW : info.data.any (fun c => decide (c = 1)) with
    | false =>
      have hres : (processFloodMap s info false write).1 = (some "NO_WATER", none) := by
        unfold processFloodMap processFloodMapBody
        simp only [hW]
        simp
      refine ⟨iff_of_true hres ⟨fun h => absurd h (by decide), fun _ c hcmem => ?_⟩,
        fun _ hex => ?_⟩
      · have h' := List.any_eq_false.mp hW c hcmem
        simpa using h'
      · exfalso
        obtain ⟨c, hcmem, hc1⟩ := hex
        have h' := List.any_eq_false.mp hW c hcmem
        exact h' (by rw [hc1]; decide)
    | true =>
      have hres : (processFloodMap s info false write).1 = (some s, none) := by
        unfold processFloodMap processFloodMapBody
        simp only [hW]
        simp
      refine ⟨?_, fun _ _ => hres⟩
      rw [hres]
      constructor
      · intro heq
        exfalso
        have : (some s : Option String) = some "NO_WATER" := congrArg Prod.fst heq
        exact hs (Option.some.inj this)
      · intro hforall
        exfalso
        obtain ⟨c, hcmem, hc1⟩ := List.any_eq_true.mp hW
        exact hforall.2 rfl c hcmem (of_decide_eq_true hc1)

theorem claim_C4_no_water_detection_witness :
    (processFloodMap "flood.tif" ⟨[0, 0], fun v => v⟩ true
        (fun _ => Except.ok ())).1 = (some "NO_WATER", none) :=
  (claim_C4_no_water_detection "flood.tif" ⟨[0, 0], fun v => v⟩ true
      (fun _ => Except.ok ()) (fun _ => rfl) (by decide) (by decide)).1.mpr
    (by decide)

/-- C5: whenever the classifier's body raises an exception,
`processFloodMap` does not propagate it but returns `(None, None)`; the
pipeline's dispatch treats that `None` identifier as fatal (the run is
aborted with status `("ERROR", 0)`), treats a `NO_WATER` identifier as
successful early termination (status `("DONE", 100)`, no model
invocation), and these two outcomes are never conflated. -/
theorem claim_C5_failure_vs_no_water (s : String) (info : FloodMapInfo) (b : Bool)
    (write : WrittenFile → Except String Unit) (e : String)
    (herr : processFloodMapBody s info b write = Except.error e) :
    (processFloodMap s info b write).1 = (none, none) ∧
    classificationDecision (processFloodMap s info b write).1.1 = PipelineOutcome.fatal ∧
    outcomeStatus PipelineOutcome.fatal = some ("ERROR", 0) ∧
    classificationDecision (some "NO_WATER") = PipelineOutcome.earlyDone ∧
    outcomeStatus PipelineOutcome.earlyDone = some ("DONE", 100) ∧
    PipelineOutcome.fatal ≠ PipelineOutcome.earlyDone := by
  have h1 : processFloodMap s info b write = ((none, none), []) := by
    unfold processFloodMap
    rw [herr]
  exact ⟨by rw [h1], by rw [h1]; rfl, rfl, rfl, rfl, by decide⟩

theorem claim_C5_failure_vs_no_water_witness :
    (processFloodMap "flood.tif" ⟨[2], fun v => v % 256⟩ true
        (fun _ => Except.error "write failed")).1 = (none, none) :=
  (claim_C5_failure_vs_no_water "flood.tif" ⟨[2], fun v => v % 256⟩ true
      (fun _ => Except.error "write failed") "write failed" rfl).1

/-- C8: reclassification is idempotent on the value domain — running
the classifier under the two-state path on a converted grid (values in
`{0, 1, 255}` with at least one cell equal to 1) is a no-op: it returns
the same identifier, no mask, and writes no new file. -/
theorem claim_C8_reclassification_idempotent (s : String) (info : FloodMapInfo)
    (write : WrittenFile → Except String Unit)
    (hdom : ∀ c ∈ info.data, c = 0 ∨ c = 1 ∨ c = 255)
    (hone : (1 : ℤ) ∈ info.data) :
    processFloodMap s info false write = ((some s, none), []) := by
  have hW : info.data.any (fun c => decide (c = 1)) = true :=
    List.any_eq_true.mpr ⟨1, hone, by decide⟩
  unfold processFloodMap processFloodMapBody
  simp only [hW]
  simp

theorem claim_C8_reclassification_idempotent_witness :
    processFloodMap "flood_converted.tif" ⟨[255, 1, 0], fun v => v % 256⟩ false
        (fun _ => Except.ok ()) = ((some "flood_converted.tif", none), []) :=
  claim_C8_reclassification_idempotent "flood_converted.tif" ⟨[255, 1, 0], fun v => v % 256⟩
    (fun _ => Except.ok ()) (by decide) (by decide)

theorem getD_mem_or_default {α : Type} (l : List α) (j : ℕ) (d : α) :
    l.getD j d ∈ l ∨ l.getD j d = d := by
  by_cases h : j < l.length
  · left
    rw [List.getD_eq_getElem l d h]
    exact List.getElem_mem h
  · right
    exact List.getD_eq_default l d (Nat.le_of_not_lt h)

/-- C7: in the two-state-with-removal case, the externally sourced
land-cover raster is binarized to values in `{0, 1}` with 1 exactly at
the cells whose land-cover code equals the target code 80, and its
alignment onto the model-output grid uses nearest-neighbor resampling
with fill value 0 for uncovered cells, targets the raw model-output
grid's geotransform and CRS, yields an array whose shape equals the
model-output grid's shape, and introduces no values outside `{0, 1}`. -/
theorem claim_C7_mask_binarization_alignment (aiFullWCData : List ℤ) (wdmShape : ℕ)
    (wdmGeoref : GridGeoref) (nn : ℕ → Option ℕ) :
    (∀ i, i < aiFullWCData.length →
      (binarizeWorldCover aiFullWCData).getD i 0 =
        if aiFullWCData.getD i 0 = 80 then 1 else 0) ∧
    (∀ v ∈ binarizeWorldCover aiFullWCData, v = 0 ∨ v = 1) ∧
    (alignPermanentWaterMask (binarizeWorldCover aiFullWCData) wdmShape
      wdmGeoref nn).method = ResamplingMethod.nearest ∧
    (alignPermanentWaterMask (binarizeWorldCover aiFullWCData) wdmShape
      wdmGeoref nn).dstNodata = 0 ∧
    (alignPermanentWaterMask (binarizeWorldCover aiFullWCData) wdmShape
      wdmGeoref nn).dstTransform = wdmGeoref.transform ∧
    (alignPermanentWaterMask (binarizeWorldCover aiFullWCData) wdmShape
      wdmGeoref nn).dstCrs = wdmGeoref.crs ∧
    (alignPermanentWaterMask (binarizeWorldCover aiFullWCData) wdmShape
      wdmGeoref nn).result.length = wdmShape ∧
    (∀ v ∈ (alignPermanentWaterMask (binarizeWorldCover aiFullWCData) wdmShape
      wdmGeoref nn).result, v = 0 ∨ v = 1) := by
  have hbinMem : ∀ v ∈ binarizeWorldCover aiFullWCData, v = 0 ∨ v = 1 := by
    intro v hv
    obtain ⟨c, _, rfl⟩ := List.mem_map.mp hv
    by_cases h : c = 80 <;> simp [h]
  refine ⟨?_, hbinMem, rfl, rfl, rfl, rfl, ?_, ?_⟩
  · intro i hi
    exact getD_map_lt (fun c : ℤ => if c = 80 then 1 else 0) aiFullWCData i hi 0 0
  · simp [alignPermanentWaterMask, reprojectNearest]
  · intro v hv
    have hv' : v ∈ reprojectNearest wdmShape (binarizeWorldCover aiFullWCData) 0 nn := hv
    unfold reprojectNearest at hv'
    obtain ⟨i, _, rfl⟩ := List.mem_map.mp hv'
    cases hnn : nn i with
    | none => simp [hnn]
    | some j =>
      simp only [hnn]
      rcases getD_mem_or_default (binarizeWorldCover aiFullWCData) j 0 with hmem | hdef
      · exact hbinMem _ hmem
      · rw [hdef]; left; rfl

theorem claim_C7_mask_binarization_alignment_witness :
    ((1 : ℕ) = 0 ∨ (1 : ℕ) = 1) :=
  (claim_C7_mask_binarization_alignment [80, 3] 3 ⟨"affineT", "EPSG:4326"⟩
      (fun i => if i = 0 then some 0 else none)).2.2.2.2.2.2.2 1 (by decide)

theorem le_foldl_max (t : List ℚ) : ∀ (h : ℚ),
    h ≤ t.foldl max h ∧ ∀ q ∈ t, q ≤ t.foldl max h := by
  induction t with
  | nil => intro h; exact ⟨le_refl h, by simp⟩
  | cons x xs ih =>
    intro h
    simp only [List.foldl_cons]
    have hmax := ih (max h x)
    refine ⟨le_trans (le_max_left h x) hmax.1, ?_⟩
    intro q hq
    rcases List.mem_cons.mp hq with rfl | hq'
    · exact le_trans (le_max_right h q) hmax.1
    · exact hmax.2 q hq'

theorem foldl_max_mem (t : List ℚ) : ∀ (h : ℚ),
    t.foldl max h = h ∨ t.foldl max h ∈ t := by
  induction t with
  | nil => intro h; left; rfl
  | cons x xs ih =>
    intro h
    simp only [List.foldl_cons]
    rcases ih (max h x) with heq | hmem
    · rw [heq]
      rcases max_choice h x with h1 | h1
      · left; exact h1
      · right; rw [h1]; exact List.mem_cons_self x xs
    · right; exact List.mem_cons_of_mem x hmem

theorem nanmax_spec (xs : List RVal) :
    (numsOf xs = [] → nanmax xs = RVal.nan) ∧
    (∀ h t, numsOf xs = h :: t →
      ∃ m, nanmax xs = RVal.num m ∧ m ∈ numsOf xs ∧ ∀ q ∈ numsOf xs, q ≤ m) := by
  constructor
  · intro he; unfold nanmax; rw [he]
  · intro h t he
    unfold nanmax
    rw [he]
    refine ⟨t.foldl max h, rfl, ?_, ?_⟩
    · rcases foldl_max_mem t h with heq | hmem
      · rw [heq]; exact List.mem_cons_self h t
      · exact List.mem_cons_of_mem h hmem
    · intro q hq
      rcases List.mem_cons.mp hq with rfl | hq'
      · exact (le_foldl_max t q).1
      · exact (le_foldl_max t h).2 q hq'

/-- C9: the output writer forces the written profile's data type to
`float32` regardless of the raw input type, sets `lzw` compression,
sets the declared no-data value to the sentinel, writes the grid cast
to `float32`, and stamps tags recording the no-data value, a forced
statistics minimum of 0, and a statistics maximum computed from the
grid ignoring the no-value marker `NaN`: it is `NaN` only when every
cell is `NaN`, and otherwise it is a numeric cell of the grid bounding
every numeric cell from above. -/
theorem claim_C9_output_writer_contract (sOutputPath : String) (afData : List RVal)
    (pProfile : Profile) (sentinel : ℚ) :
    (saveOutputWithNoData sOutputPath afData pProfile sentinel).profile.dtype = "float32" ∧
    (saveOutputWithNoData sOutputPath afData pProfile sentinel).profile.compress = "lzw" ∧
    (saveOutputWithNoData sOutputPath afData pProfile sentinel).profile.nodata =
      RVal.num sentinel ∧
    (saveOutputWithNoData sOutputPath afData pProfile sentinel).tagGdalNoData = sentinel ∧
    (saveOutputWithNoData sOutputPath afData pProfile sentinel).tagStatMin = 0 ∧
    (saveOutputWithNoData sOutputPath afData pProfile sentinel).tagStatMax = nanmax afData ∧
    (saveOutputWithNoData sOutputPath afData pProfile sentinel).bandData =
      afData.map astypeFloat32 ∧
    (numsOf afData = [] → nanmax afData = RVal.nan) ∧
    (∀ q ∈ numsOf afData, ∃ m, nanmax afData = RVal.num m ∧
      m ∈ numsOf afData ∧ q ≤ m) := by
  refine ⟨rfl, rfl, rfl, rfl, rfl, rfl, rfl, (nanmax_spec afData).1, ?_⟩
  intro q hq
  cases he : numsOf afData with
  | nil => rw [he] at hq; exact absurd hq (List.not_mem_nil q)
  | cons h t =>
    obtain ⟨m, hm, hmem, hle⟩ := (nanmax_spec afData).2 h t he
    rw [he] at hmem hle hq
    exact ⟨m, hm, hmem, hle q hq⟩

theorem claim_C9_output_writer_contract_witness :
    ∃ m, nanmax [RVal.nan, RVal.num 3, RVal.num 1] = RVal.num m ∧
      m ∈ numsOf [RVal.nan, RVal.num 3, RVal.num 1] ∧ (3 : ℚ) ≤ m :=
  (claim_C9_output_writer_contract "out_WDM.tif" [RVal.nan, RVal.num 3, RVal.num 1]
      ⟨2, 2, "uint8", RVal.num 0, "deflate"⟩ (-9999)).2.2.2.2.2.2.2.2 3 (by decide)
